import Mathlib

/-!
Verification of the `jupiter-swap-api-client` crate (src/jupiter-swap-api-client/src/lib.rs).

The crate is a thin HTTP client with one struct `JupiterSwapApiClient`, an error
enum `ClientError`, two response-handling helpers (`check_is_success`,
`check_status_code_and_deserialize`) and three operations (`quote`, `swap`,
`swap_instructions`).  The embedding below models the HTTP layer explicitly:
a `Response` carries a status code and an optional body text (`none` models a
body read that fails at the transport level), a transport is a function from
the built outgoing request to `Except String Response` (`.error` models the
send itself failing before any response arrives), and JSON decoding of a body
into a typed value is a parameter `dec : String → Except String T`.

The companion modules `quote` and `swap` of the crate are declared in lib.rs
(`pub mod quote; pub mod swap; ...`) but their files are not present under
src/; the data shapes they supply are modelled from the spec and marked as
such in their doc comments.
-/

namespace JupiterSwap

/-- HTTP status codes, modelled as natural numbers. -/
abbrev StatusCode := Nat

/-- Model of `reqwest::StatusCode::is_success`: the conventional 2xx range,
200 ≤ code < 300. -/
def isSuccess (s : StatusCode) : Bool := 200 ≤ s && s < 300

/-- Model of an HTTP response as seen by the client: a status code and the
body.  `body = none` models a body read that fails at the transport level
(`response.text()` or the read inside `response.json()` returning `Err`). -/
structure Response where
  status : StatusCode
  body : Option String
deriving Repr, DecidableEq

/-- Model of `ClientError` (lib.rs lines 24-33): exactly two variants.
`RequestFailed` carries the status code and the raw body text;
`DeserializationError` carries the underlying `reqwest::Error`, modelled as
its message string. -/
inductive ClientError where
  | RequestFailed (status : StatusCode) (body : String)
  | DeserializationError (cause : String)
deriving Repr, DecidableEq

/-- Model of `check_is_success` (lib.rs lines 35-42): a non-success status
turns into `RequestFailed` carrying the status and the best-effort body text
(`response.text().await.unwrap_or_default()`, i.e. the empty string when the
read fails); a success status passes the response through. -/
def check_is_success (response : Response) : Except ClientError Response :=
  if !(isSuccess response.status) then
    .error (.RequestFailed response.status (response.body.getD ""))
  else
    .ok response

/-- Model of `Response::json::<T>()`: read the body, then decode it with the
deserializer for `T`.  A failed body read is itself a `reqwest::Error`. -/
def Response.json {T : Type} (dec : String → Except String T) (r : Response) :
    Except String T :=
  match r.body with
  | none => .error "failed to read response body"
  | some b => dec b

/-- Model of `check_status_code_and_deserialize` (lib.rs lines 44-52): first
`check_is_success`, then `response.json::<T>()` with decoding failures mapped
into `ClientError::DeserializationError`. -/
def check_status_code_and_deserialize {T : Type} (dec : String → Except String T)
    (response : Response) : Except ClientError T :=
  match check_is_success response with
  | .error e => .error e
  | .ok response =>
    match response.json dec with
    | .error e => .error (.DeserializationError e)
    | .ok v => .ok v

/-- Configuration of the shared `reqwest::Client` built in `new`
(lib.rs lines 59-63). -/
structure HttpClientConfig where
  http2_keep_alive_while_idle : Bool
  pool_idle_timeout : Option Nat
  http2_keep_alive_interval : Option Nat
deriving Repr, DecidableEq

/-- Model of `Client::builder()...build()`: the builder can fail for reasons
of its own (e.g. TLS backend initialisation), never because of the base path;
the outcome is modelled by the boolean `builds`.  On success it yields the
configuration set in `new`: keep-alive while idle, unbounded pool idle
timeout, 10-second keep-alive interval. -/
def buildHttpClient (builds : Bool) : Except String HttpClientConfig :=
  if builds then
    .ok { http2_keep_alive_while_idle := true
          pool_idle_timeout := none
          http2_keep_alive_interval := some 10 }
  else
    .error "client builder error"

/-- Model of the `JupiterSwapApiClient` struct (lib.rs lines 15-22). -/
structure JupiterSwapApiClient where
  base_path : String
  quote_path : String
  swap_path : String
  swap_instructions_path : String
  http_client : HttpClientConfig
deriving Repr, DecidableEq

/-- Model of `JupiterSwapApiClient::new` (lib.rs lines 55-71): derive the
three endpoint paths by string concatenation, build the transport, and fail
only if the transport builder fails. -/
def JupiterSwapApiClient.new (base_path : String) (builds : Bool) :
    Except String JupiterSwapApiClient :=
  let quote_path := base_path ++ "/quote"
  let swap_path := base_path ++ "/swap"
  let swap_instructions_path := base_path ++ "/swap-instructions"
  match buildHttpClient builds with
  | .error e => .error e
  | .ok http_client =>
    .ok { base_path, quote_path, swap_path, swap_instructions_path, http_client }

/-- Query parameters as an ordered list of key/value string pairs, the order
in which the serializer emits them into the query string. -/
abbrev QueryParams := List (String × String)

/-- Model of appending an `Option<HashMap<String, String>>` to the query via
`.query(&extra_args)`: `None` serializes to nothing at all, `Some` serializes
its pairs. -/
def serializeExtra : Option QueryParams → QueryParams
  | none => []
  | some m => m

/-- Modelled from the spec: the `quote` module file is not under src/.  A
quote request is "a request description plus an optional side-channel mapping
of extra string key/value query parameters" (`quote_args`); the description
is abstracted as its serialized core fields. -/
structure QuoteRequest where
  core : QueryParams
  quote_args : Option QueryParams
deriving Repr, DecidableEq

/-- Modelled from the spec: the internal wire form of a quote request, shaped
like the public one; had `quote_args` not been removed before conversion it
would still be carried here and serialized nested among the primary fields. -/
structure InternalQuoteRequest where
  core : QueryParams
  quote_args : Option QueryParams
deriving Repr, DecidableEq

/-- Modelled from the spec: the `From<QuoteRequest> for InternalQuoteRequest`
conversion supplied by the external schema module, carrying the logical
fields over. -/
def InternalQuoteRequest.from (q : QuoteRequest) : InternalQuoteRequest :=
  { core := q.core, quote_args := q.quote_args }

/-- Modelled from the spec: serialization of the internal quote request into
query parameters via `.query(&internal_quote_request)`; a still-present
extra-parameters mapping would appear nested among the primary fields. -/
def InternalQuoteRequest.serialize (q : InternalQuoteRequest) : QueryParams :=
  q.core ++ serializeExtra q.quote_args

/-- HTTP methods used by the client. -/
inductive Method where
  | GET
  | POST
deriving Repr, DecidableEq

/-- An outgoing HTTP request as assembled by the client: method, URL, the
query parameters accumulated by the `.query(..)` calls in order, and the
optional JSON body set by `.json(..)`. -/
structure HttpRequest where
  method : Method
  url : String
  query : QueryParams
  body : Option String
deriving Repr, DecidableEq

/-- Modelled from the spec: the `swap` module file is not under src/.  A swap
request is an immutable request description, abstracted as its field list. -/
structure SwapRequest where
  fields : List (String × String)
deriving Repr, DecidableEq

/-- Modelled from the spec: JSON serialization of a swap request for
`.json(swap_request)`, an injective rendering of its fields. -/
def SwapRequest.toJson (r : SwapRequest) : String :=
  String.intercalate "," (r.fields.map (fun p => p.1 ++ "=" ++ p.2))

/-- Modelled from the spec: the decoded quote response shape is supplied by
the external schema module; its payload is abstract here. -/
structure QuoteResponse where
  payload : String
deriving Repr, DecidableEq

/-- Modelled from the spec: the decoded swap response shape is supplied by
the external schema module; its payload is abstract here. -/
structure SwapResponse where
  payload : String
deriving Repr, DecidableEq

/-- Modelled from the spec: the internal wire representation of a
swap-instructions response, with the logical fields of the decomposed swap
(instructions abstracted as strings). -/
structure SwapInstructionsResponseInternal where
  token_ledger_instruction : Option String
  compute_budget_instructions : List String
  setup_instructions : List String
  swap_instruction : String
  cleanup_instruction : Option String
  address_lookup_table_addresses : List String
deriving Repr, DecidableEq

/-- Modelled from the spec: the public swap-instructions response, holding
the same logical fields as the internal wire form. -/
structure SwapInstructionsResponse where
  token_ledger_instruction : Option String
  compute_budget_instructions : List String
  setup_instructions : List String
  swap_instruction : String
  cleanup_instruction : Option String
  address_lookup_table_addresses : List String
deriving Repr, DecidableEq

/-- Modelled from the spec: the total `Into` conversion from the internal
wire representation to the public one, restructuring field by field. -/
def SwapInstructionsResponseInternal.into (r : SwapInstructionsResponseInternal) :
    SwapInstructionsResponse :=
  { token_ledger_instruction := r.token_ledger_instruction
    compute_budget_instructions := r.compute_budget_instructions
    setup_instructions := r.setup_instructions
    swap_instruction := r.swap_instruction
    cleanup_instruction := r.cleanup_instruction
    address_lookup_table_addresses := r.address_lookup_table_addresses }

/-- A transport sends an assembled request and either fails at the transport
level before any response (`.error`, the `Err` of `send().await`) or yields a
response. -/
abbrev Transport := HttpRequest → Except String Response

/-- The internal quote request actually serialized by `quote`: the
extra-parameters mapping is taken out of the request
(`quote_request.quote_args.take()` leaves `None` behind) before the
conversion `InternalQuoteRequest::from`. -/
def quoteInternalOf (quote_request : QuoteRequest) : InternalQuoteRequest :=
  InternalQuoteRequest.from { quote_request with quote_args := none }

/-- The outgoing GET request built by `quote` (lib.rs lines 73-82): URL is
the quote path, and the query string merges two independently-serialized
components, the internal wire form and the extracted extra-parameters
mapping. -/
def quoteBuildRequest (c : JupiterSwapApiClient) (quote_request : QuoteRequest) :
    HttpRequest :=
  let extra_args := quote_request.quote_args
  let internal_quote_request := quoteInternalOf quote_request
  { method := .GET
    url := c.quote_path
    query := internal_quote_request.serialize ++ serializeExtra extra_args
    body := none }

/-- Model of `JupiterSwapApiClient::quote` (lib.rs lines 73-84): build the
GET request, send it (a transport failure becomes `DeserializationError` via
the `#[from] reqwest::Error` conversion behind `?`), then run the shared
response handling. -/
def quoteRun (c : JupiterSwapApiClient) (send : Transport)
    (dec : String → Except String QuoteResponse) (quote_request : QuoteRequest) :
    Except ClientError QuoteResponse :=
  match send (quoteBuildRequest c quote_request) with
  | .error e => .error (.DeserializationError e)
  | .ok response => check_status_code_and_deserialize dec response

/-- The outgoing POST request built by `swap` (lib.rs lines 91-96): URL is
the swap path, the optional extra-parameters mapping is the query, and the
swap request serialized as JSON is the body. -/
def swapBuildRequest (c : JupiterSwapApiClient) (swap_request : SwapRequest)
    (extra_args : Option QueryParams) : HttpRequest :=
  { method := .POST
    url := c.swap_path
    query := serializeExtra extra_args
    body := some swap_request.toJson }

/-- Model of `JupiterSwapApiClient::swap` (lib.rs lines 86-98). -/
def swapRun (c : JupiterSwapApiClient) (send : Transport)
    (dec : String → Except String SwapResponse) (swap_request : SwapRequest)
    (extra_args : Option QueryParams) : Except ClientError SwapResponse :=
  match send (swapBuildRequest c swap_request extra_args) with
  | .error e => .error (.DeserializationError e)
  | .ok response => check_status_code_and_deserialize dec response

/-- The outgoing POST request built by `swap_instructions` (lib.rs lines
104-108): URL is the swap-instructions path, no query parameters at all, and
the swap request serialized as JSON is the body. -/
def swapInstructionsBuildRequest (c : JupiterSwapApiClient)
    (swap_request : SwapRequest) : HttpRequest :=
  { method := .POST
    url := c.swap_instructions_path
    query := []
    body := some swap_request.toJson }

/-- Model of `JupiterSwapApiClient::swap_instructions` (lib.rs lines
100-112): build the POST request, send it, run the shared response handling
against the internal wire representation, then convert the decoded value into
the public representation with `.map(Into::into)`. -/
def swapInstructionsRun (c : JupiterSwapApiClient) (send : Transport)
    (dec : String → Except String SwapInstructionsResponseInternal)
    (swap_request : SwapRequest) : Except ClientError SwapInstructionsResponse :=
  match send (swapInstructionsBuildRequest c swap_request) with
  | .error e => .error (.DeserializationError e)
  | .ok response =>
    (check_status_code_and_deserialize dec response).map
      SwapInstructionsResponseInternal.into

/-- State-passing form of `quote`: the method borrows `&self` and never
assigns to it, so the client state is threaded through unchanged. -/
def quoteCall (c : JupiterSwapApiClient) (send : Transport)
    (dec : String → Except String QuoteResponse) (quote_request : QuoteRequest) :
    Except ClientError QuoteResponse × JupiterSwapApiClient :=
  (quoteRun c send dec quote_request, c)

/-- State-passing form of `swap`: `&self` and `&SwapRequest` are read-only
borrows, so both are threaded through unchanged. -/
def swapCall (c : JupiterSwapApiClient) (send : Transport)
    (dec : String → Except String SwapResponse) (swap_request : SwapRequest)
    (extra_args : Option QueryParams) :
    Except ClientError SwapResponse × JupiterSwapApiClient × SwapRequest :=
  (swapRun c send dec swap_request extra_args, c, swap_request)

/-- State-passing form of `swap_instructions`: `&self` and `&SwapRequest` are
read-only borrows, so both are threaded through unchanged. -/
def swapInstructionsCall (c : JupiterSwapApiClient) (send : Transport)
    (dec : String → Except String SwapInstructionsResponseInternal)
    (swap_request : SwapRequest) :
    Except ClientError SwapInstructionsResponse × JupiterSwapApiClient × SwapRequest :=
  (swapInstructionsRun c send dec swap_request, c, swap_request)

/-- A sample decoder used only by concrete witnesses. -/
def decodeQuoteSample : String → Except String QuoteResponse :=
  fun s => if s = "bad" then .error "invalid json" else .ok { payload := s }

/-- A sample internal swap-instructions decoder used only by witnesses. -/
def decodeSwapIxSample : String → Except String SwapInstructionsResponseInternal :=
  fun s => .ok { token_ledger_instruction := none
                 compute_budget_instructions := []
                 setup_instructions := []
                 swap_instruction := s
                 cleanup_instruction := none
                 address_lookup_table_addresses := [] }

/-- A sample client used only by concrete witnesses. -/
def sampleClient : JupiterSwapApiClient :=
  { base_path := "https://quote-api.jup.ag/v6"
    quote_path := "https://quote-api.jup.ag/v6/quote"
    swap_path := "https://quote-api.jup.ag/v6/swap"
    swap_instructions_path := "https://quote-api.jup.ag/v6/swap-instructions"
    http_client := { http2_keep_alive_while_idle := true
                     pool_idle_timeout := none
                     http2_keep_alive_interval := some 10 } }

/-- A sample transport that fails at the send, used only by witnesses. -/
def sendFailSample : Transport := fun _ => .error "connection refused"

/-- Whether `JupiterSwapApiClient::new` succeeds, as a boolean. -/
def constructionSucceeds (base_path : String) (builds : Bool) : Bool :=
  match JupiterSwapApiClient.new base_path builds with
  | .ok _ => true
  | .error _ => false

/-- Claim C1: for every HTTP response, the shared response-handling helper
`check_status_code_and_deserialize` attempts JSON decoding exactly when the
status is in the 2xx success range, returning the decoded value on success
and a deserialization error wrapping the cause on failure; for every status
outside that range it returns a request-failed error carrying the status and
the raw body text, and the outcome is independent of the decoder (decoding is
never attempted). -/
theorem check_status_code_and_deserialize_spec {T : Type}
    (dec dec2 : String → Except String T) (r : Response) :
    (isSuccess r.status = true →
      (∀ v, r.json dec = .ok v →
        check_status_code_and_deserialize dec r = .ok v) ∧
      (∀ e, r.json dec = .error e →
        check_status_code_and_deserialize dec r =
          .error (.DeserializationError e))) ∧
    (isSuccess r.status = false →
      check_status_code_and_deserialize dec r =
        .error (.RequestFailed r.status (r.body.getD "")) ∧
      check_status_code_and_deserialize dec r =
        check_status_code_and_deserialize dec2 r) := by
  constructor
  · intro h
    constructor
    · intro v hv
      simp [check_status_code_and_deserialize, check_is_success, h, hv]
    · intro e he
      simp [check_status_code_and_deserialize, check_is_success, h, he]
  · intro h
    constructor <;>
      simp [check_status_code_and_deserialize, check_is_success, h]

/-- Witness for C1 at a concrete non-2xx response. -/
theorem check_status_code_and_deserialize_spec_witness :
    check_status_code_and_deserialize decodeQuoteSample ⟨404, some "oops"⟩ =
      .error (.RequestFailed 404 "oops") :=
  ((check_status_code_and_deserialize_spec decodeQuoteSample decodeQuoteSample
    ⟨404, some "oops"⟩).2 (by decide)).1

/-- Claim C2: `quote` removes the extra-parameters mapping from the request
before converting the remainder to the internal wire form, so the internal
component of the query carries no copy of the mapping and the mapping appears
once, as the second independently-serialized query component. -/
theorem quote_extra_args_serialized_once (c : JupiterSwapApiClient)
    (core args : QueryParams) :
    (quoteInternalOf ⟨core, some args⟩).quote_args = none ∧
    (quoteInternalOf ⟨core, some args⟩).serialize = core ∧
    (quoteBuildRequest c ⟨core, some args⟩).query =
      (quoteInternalOf ⟨core, some args⟩).serialize ++ args := by
  refine ⟨rfl, ?_, ?_⟩ <;>
    simp [quoteInternalOf, InternalQuoteRequest.from, InternalQuoteRequest.serialize,
      serializeExtra, quoteBuildRequest]

/-- Claim C3: `ClientError` has exactly the two kinds `RequestFailed` (status
code and raw body text) and `DeserializationError` (underlying cause), and a
transport-level failure of the send itself is classified as
`DeserializationError` by every operation. -/
theorem client_error_two_kinds (e : ClientError) (c : JupiterSwapApiClient)
    (send : Transport) (decq : String → Except String QuoteResponse)
    (decs : String → Except String SwapResponse)
    (deci : String → Except String SwapInstructionsResponseInternal)
    (q : QuoteRequest) (sr : SwapRequest) (extra : Option QueryParams)
    (msg : String) :
    ((∃ s b, e = .RequestFailed s b) ∨ (∃ cause, e = .DeserializationError cause)) ∧
    (send (quoteBuildRequest c q) = .error msg →
      quoteRun c send decq q = .error (.DeserializationError msg)) ∧
    (send (swapBuildRequest c sr extra) = .error msg →
      swapRun c send decs sr extra = .error (.DeserializationError msg)) ∧
    (send (swapInstructionsBuildRequest c sr) = .error msg →
      swapInstructionsRun c send deci sr = .error (.DeserializationError msg)) := by
  refine ⟨?_, ?_, ?_, ?_⟩
  · cases e with
    | RequestFailed s b => exact .inl ⟨s, b, rfl⟩
    | DeserializationError cause => exact .inr ⟨cause, rfl⟩
  · intro h; simp [quoteRun, h]
  · intro h; simp [swapRun, h]
  · intro h; simp [swapInstructionsRun, h]

/-- Witness for C3 at a concrete failing transport. -/
theorem client_error_two_kinds_witness :
    quoteRun sampleClient sendFailSample decodeQuoteSample ⟨[], none⟩ =
      .error (.DeserializationError "connection refused") :=
  (client_error_two_kinds (.RequestFailed 0 "") sampleClient sendFailSample
    decodeQuoteSample (fun s => .ok ⟨s⟩) decodeSwapIxSample ⟨[], none⟩ ⟨[]⟩
    none "connection refused").2.1 rfl

/-- Claim C4: a non-2xx response whose body cannot be read yields a
request-failed error carrying the empty string as its body; the read failure
is not propagated as an error of its own, neither by `check_is_success` nor
by the full response-handling helper. -/
theorem request_failed_empty_body_on_read_failure {T : Type}
    (dec : String → Except String T) (s : StatusCode)
    (h : isSuccess s = false) :
    check_is_success ⟨s, none⟩ = .error (.RequestFailed s "") ∧
    check_status_code_and_deserialize dec ⟨s, none⟩ =
      .error (.RequestFailed s "") := by
  constructor <;>
    simp [check_is_success, check_status_code_and_deserialize, h]

/-- Witness for C4 at a concrete failed body read after status 502. -/
theorem request_failed_empty_body_on_read_failure_witness :
    check_is_success ⟨502, none⟩ = .error (.RequestFailed 502 "") ∧
    check_status_code_and_deserialize decodeQuoteSample ⟨502, none⟩ =
      .error (.RequestFailed 502 "") :=
  request_failed_empty_body_on_read_failure decodeQuoteSample 502 (by decide)

/-- Claim C5: for every base-path string, construction with a successful
transport build succeeds and derives exactly the three endpoint paths by
concatenation: `base ++ "/quote"`, `base ++ "/swap"`,
`base ++ "/swap-instructions"`. -/
theorem new_derives_three_paths (base_path : String) :
    JupiterSwapApiClient.new base_path true =
      .ok { base_path := base_path
            quote_path := base_path ++ "/quote"
            swap_path := base_path ++ "/swap"
            swap_instructions_path := base_path ++ "/swap-instructions"
            http_client := { http2_keep_alive_while_idle := true
                             pool_idle_timeout := none
                             http2_keep_alive_interval := some 10 } } := rfl

/-- Claim C6: `swap_instructions` issues a POST to the swap-instructions path
with the swap request serialized as the JSON body and an empty query (no
extra parameters, asymmetric with `swap`), and on a success response whose
body decodes as the internal wire representation it returns that value
converted into the public representation. -/
theorem swap_instructions_request_shape_and_decode (c : JupiterSwapApiClient)
    (sr : SwapRequest) :
    swapInstructionsBuildRequest c sr =
      { method := .POST
        url := c.swap_instructions_path
        query := []
        body := some sr.toJson } ∧
    ∀ (send : Transport)
      (dec : String → Except String SwapInstructionsResponseInternal)
      (resp : Response) (b : String)
      (internal : SwapInstructionsResponseInternal),
      send (swapInstructionsBuildRequest c sr) = .ok resp →
      isSuccess resp.status = true →
      resp.body = some b →
      dec b = .ok internal →
      swapInstructionsRun c send dec sr = .ok internal.into := by
  refine ⟨rfl, ?_⟩
  intro send dec resp b internal hsend hst hb hdec
  simp [swapInstructionsRun, hsend, check_status_code_and_deserialize,
    check_is_success, hst, Response.json, hb, hdec, Except.map]

/-- Witness for C6 at a concrete transport and decoder. -/
theorem swap_instructions_request_shape_and_decode_witness :
    swapInstructionsRun sampleClient (fun _ => .ok ⟨200, some "ix"⟩)
        decodeSwapIxSample ⟨[]⟩ =
      .ok (SwapInstructionsResponseInternal.into ⟨none, [], [], "ix", none, []⟩) :=
  (swap_instructions_request_shape_and_decode sampleClient ⟨[]⟩).2
    (fun _ => .ok ⟨200, some "ix"⟩) decodeSwapIxSample ⟨200, some "ix"⟩ "ix"
    ⟨none, [], [], "ix", none, []⟩ rfl (by decide) rfl rfl

/-- Claim C7: the internal-to-public conversion of a swap-instructions
response is total and yields exactly the public form built directly from the
same logical field values, losing and altering no field. -/
theorem swap_instructions_into_preserves_fields (t : Option String)
    (cb su : List String) (si : String) (cl : Option String)
    (al : List String) :
    SwapInstructionsResponseInternal.into ⟨t, cb, su, si, cl, al⟩ =
      SwapInstructionsResponse.mk t cb su si cl al := rfl

/-- Claim C8: no operation mutates the client state or the borrowed swap
request: each state-passing call returns the client (and for `swap` and
`swap_instructions` the swap request) exactly as received. -/
theorem operations_leave_state_unchanged (c : JupiterSwapApiClient)
    (send : Transport) (decq : String → Except String QuoteResponse)
    (decs : String → Except String SwapResponse)
    (deci : String → Except String SwapInstructionsResponseInternal)
    (q : QuoteRequest) (sr : SwapRequest) (extra : Option QueryParams) :
    (quoteCall c send decq q).2 = c ∧
    (swapCall c send decs sr extra).2.1 = c ∧
    (swapCall c send decs sr extra).2.2 = sr ∧
    (swapInstructionsCall c send deci sr).2.1 = c ∧
    (swapInstructionsCall c send deci sr).2.2 = sr :=
  ⟨rfl, rfl, rfl, rfl, rfl⟩

/-- Claim C9: construction performs no validation of the base path: for any
two base-path strings and the same transport-builder outcome, `new` succeeds
on one exactly when it succeeds on the other. -/
theorem new_success_independent_of_base_path (p1 p2 : String) (builds : Bool) :
    constructionSucceeds p1 builds = constructionSucceeds p2 builds := by
  cases builds <;> rfl

/-- Claim C10: with the extra-parameters argument absent, `swap` issues a
request whose query is empty (identical to a request built with no
extra-parameters source at all), and `quote` with an absent mapping
contributes nothing to the query beyond the internal quote-request fields. -/
theorem absent_extra_params_contribute_nothing (c : JupiterSwapApiClient)
    (sr : SwapRequest) (core : QueryParams) :
    swapBuildRequest c sr none =
      { method := .POST
        url := c.swap_path
        query := []
        body := some sr.toJson } ∧
    (quoteBuildRequest c ⟨core, none⟩).query =
      (quoteInternalOf ⟨core, none⟩).serialize ∧
    (quoteBuildRequest c ⟨core, none⟩).query = core := by
  refine ⟨rfl, ?_, ?_⟩ <;>
    simp [quoteBuildRequest, quoteInternalOf, InternalQuoteRequest.from,
      InternalQuoteRequest.serialize, serializeExtra]

end JupiterSwap
